import Mathlib

/-
Verification of the glutin example application (glutin_examples/src/lib.rs):
a shallow embedding of its config selection, context creation fallback chain,
and application lifecycle state machine, together with theorems about them.

Conventions of the embedding:
* Rust panics (unwrap / expect / assert!) are modelled by returning `none`.
* External platform calls (display building, window finalization, surface
  creation, making a context current, buffer swapping) are modelled by an
  `Env` of oracles; the distinguished `okEnv` makes every call succeed.
* Ghost fields on `App` (configSelections, rendererCreations,
  surfaceResizeCalls) record how often the corresponding external calls
  were performed; they do not influence control flow.
-/

namespace GlutinExamples

/-- A framebuffer configuration descriptor: the two observables the example
queries on a glutin Config are its sample count and whether it supports
transparency (the latter is an Option in glutin's API). -/
structure Config where
  numSamples : Nat
  supportsTransparency : Option Bool
deriving Repr, DecidableEq

/-- Embedding of gl_config_picker from glutin_examples/src/lib.rs.  The Rust
function reduces the iterator (left fold whose accumulator starts at the
first element) and unwraps the result; the unwrap panic on an empty iterator
is modelled by `none`. -/
def pickStep (accum config : Config) : Config :=
  let transparency_check :=
    (config.supportsTransparency.getD false)
      && !(accum.supportsTransparency.getD false)
  if transparency_check || decide (config.numSamples > accum.numSamples)
  then config
  else accum

def gl_config_picker (configs : List Config) : Option Config :=
  match configs with
  | [] => none
  | first :: rest => some (rest.foldl pickStep first)

/-- The Config Selector exactly as the specification words it (section 4.1):
a left fold over the sequence starting from the first element as accumulator;
for each subsequent candidate C against accumulator A, if C supports
transparency and A does not then A is replaced by C, otherwise if C's sample
count is strictly greater than A's then A is replaced by C, otherwise A is
kept. -/
def pickSpec (configs : List Config) : Option Config :=
  match configs with
  | [] => none
  | first :: rest =>
    some (rest.foldl
      (fun a c =>
        if (c.supportsTransparency.getD false) = true
            ∧ ¬ ((a.supportsTransparency.getD false) = true) then c
        else if c.numSamples > a.numSamples then c
        else a)
      first)

theorem gl_config_picker_step_eq (a c : Config) :
    pickStep a c
    = (if (c.supportsTransparency.getD false) = true
            ∧ ¬ ((a.supportsTransparency.getD false) = true) then c
        else if c.numSamples > a.numSamples then c
        else a) := by
  unfold pickStep
  cases hc : c.supportsTransparency.getD false
    <;> cases ha : a.supportsTransparency.getD false
    <;> by_cases hs : c.numSamples > a.numSamples
    <;> simp [hc, ha, hs]

theorem pickStep_or (a c : Config) : pickStep a c = a ∨ pickStep a c = c := by
  unfold pickStep
  by_cases h : ((c.supportsTransparency.getD false
      && !(a.supportsTransparency.getD false))
      || decide (c.numSamples > a.numSamples)) = true
  · simp [h]
  · simp [h]

/-- C1: the Config Selector computes the left fold described by the
specification (first element as initial accumulator; a candidate replaces the
accumulator when it adds transparency support, otherwise when it has strictly
more samples), and on the concrete input
[{samples:4,transparent:false}, {samples:2,transparent:true},
{samples:8,transparent:false}] it returns {samples:8,transparent:false}:
the transparency preference is not sticky. -/
theorem gl_config_picker_matches_spec_fold :
    (∀ configs : List Config, gl_config_picker configs = pickSpec configs)
    ∧ gl_config_picker
        [⟨4, some false⟩, ⟨2, some true⟩, ⟨8, some false⟩]
      = some ⟨8, some false⟩ := by
  constructor
  · intro configs
    cases configs with
    | nil => rfl
    | cons first rest =>
      simp only [gl_config_picker, pickSpec, Option.some.injEq]
      congr 1
      funext a c
      exact gl_config_picker_step_eq a c
  · decide

/-- C3: on the empty input sequence the Config Selector fails (the reduce
yields no value and the unwrap panics; the specification's error taxonomy
names this failure NoConfigAvailable) rather than returning a config. -/
theorem gl_config_picker_empty_fails : gl_config_picker [] = none := rfl

theorem foldl_pick_mem (step : Config → Config → Config)
    (hstep : ∀ a c, step a c = a ∨ step a c = c) :
    ∀ (l : List Config) (a : Config), l.foldl step a = a ∨ l.foldl step a ∈ l := by
  intro l
  induction l with
  | nil => intro a; exact Or.inl rfl
  | cons c cs ih =>
    intro a
    rcases ih (step a c) with h | h
    · rcases hstep a c with h' | h'
      · exact Or.inl (by rw [List.foldl_cons, h, h'])
      · exact Or.inr (by rw [List.foldl_cons, h, h']; exact List.mem_cons_self c cs)
    · exact Or.inr (List.mem_cons_of_mem c h)

/-- C2: whenever the Config Selector returns a config, that config is an
element of the input sequence; it never fabricates a config. -/
theorem gl_config_picker_mem (configs : List Config) (c : Config)
    (h : gl_config_picker configs = some c) : c ∈ configs := by
  cases configs with
  | nil => exact absurd h (by simp [gl_config_picker])
  | cons first rest =>
    simp only [gl_config_picker, Option.some.injEq] at h
    subst h
    rcases foldl_pick_mem pickStep pickStep_or rest first with h | h
    · rw [h]; exact List.mem_cons_self first rest
    · exact List.mem_cons_of_mem first h

/-- Closed instantiation of gl_config_picker_mem on a concrete input. -/
theorem gl_config_picker_mem_witness :
    gl_config_picker [⟨4, some false⟩, ⟨2, some true⟩] = some ⟨2, some true⟩
    ∧ (⟨2, some true⟩ : Config) ∈
        [(⟨4, some false⟩ : Config), ⟨2, some true⟩] :=
  ⟨by decide, gl_config_picker_mem _ _ (by decide)⟩

/-- An OpenGL version, as in glutin's Version { major, minor }. -/
structure Version where
  major : Nat
  minor : Nat
deriving Repr, DecidableEq

/-- glutin's ContextApi: a desktop OpenGL or GLES API selector, optionally
pinned to a specific version. -/
inductive ContextApi where
  | openGl (version : Option Version)
  | gles (version : Option Version)
deriving Repr, DecidableEq

/-- The part of glutin's ContextAttributes the example sets: the chosen API
(none means the builder default, i.e. the platform's native/core profile)
and the raw window handle the attributes were built with (window handles are
modelled by numeric identifiers). -/
structure ContextAttributes where
  api : Option ContextApi
  rawWindowHandle : Option Nat
deriving Repr, DecidableEq

/-- A not-yet-current GL context: it records the Config it was created from
and the attributes it was created with. -/
structure NotCurrentContext where
  config : Config
  attrs : ContextAttributes
deriving Repr, DecidableEq

/-- A possibly-current GL context; isCurrent tracks whether it is current. -/
structure PossiblyCurrentContext where
  config : Config
  attrs : ContextAttributes
  isCurrent : Bool
deriving Repr, DecidableEq

/-- glutin's treat_as_possibly_current on a not-current context. -/
def NotCurrentContext.treat_as_possibly_current
    (c : NotCurrentContext) : PossiblyCurrentContext :=
  { config := c.config, attrs := c.attrs, isCurrent := false }

/-- The default context attributes built in create_gl_context:
ContextAttributesBuilder::new().build(raw_window_handle). -/
def context_attributes (rawWindowHandle : Option Nat) : ContextAttributes :=
  { api := none, rawWindowHandle }

/-- The GLES fallback attributes built in create_gl_context:
with_context_api(ContextApi::Gles(None)). -/
def fallback_context_attributes (rawWindowHandle : Option Nat) : ContextAttributes :=
  { api := some (ContextApi.gles none), rawWindowHandle }

/-- The legacy 2.1 attributes built in create_gl_context:
with_context_api(ContextApi::OpenGl(Some(Version::new(2, 1)))). -/
def legacy_context_attributes (rawWindowHandle : Option Nat) : ContextAttributes :=
  { api := some (ContextApi.openGl (some { major := 2, minor := 1 })), rawWindowHandle }

/-- Embedding of create_gl_context from glutin_examples/src/lib.rs.  The
display's create_context call is an oracle (already specialised to the
gl_config the Rust function receives).  Besides the resulting context the
embedding returns the list of attribute profiles that were attempted, in
order; the expect panic when all three attempts fail is modelled by a `none`
first component. -/
def create_gl_context (createContext : ContextAttributes → Option NotCurrentContext)
    (rawWindowHandle : Option Nat) :
    Option NotCurrentContext × List ContextAttributes :=
  let a1 := context_attributes rawWindowHandle
  let a2 := fallback_context_attributes rawWindowHandle
  let a3 := legacy_context_attributes rawWindowHandle
  match createContext a1 with
  | some c => (some c, [a1])
  | none =>
    match createContext a2 with
    | some c => (some c, [a1, a2])
    | none =>
      match createContext a3 with
      | some c => (some c, [a1, a2, a3])
      | none => (none, [a1, a2, a3])

/-- C4: the Context Factory tries exactly the three attribute profiles
(default/core, then GLES, then legacy OpenGL 2.1) against the same config in
strict order, returns the context from the first profile that succeeds (so
when profiles 1 and 2 fail and 3 succeeds, exactly the three attempts
[default, gles, legacy21] occur in order and the result carries profile 3's
attributes), and fails only when all three attempts fail. -/
theorem create_gl_context_fallback_chain
    (createContext : ContextAttributes → Option NotCurrentContext)
    (h : Option Nat)
    (hfaithful : ∀ a c, createContext a = some c → c.attrs = a) :
    (∀ c, createContext (context_attributes h) = some c →
      create_gl_context createContext h = (some c, [context_attributes h]))
    ∧ (createContext (context_attributes h) = none →
        ∀ c, createContext (fallback_context_attributes h) = some c →
          create_gl_context createContext h
            = (some c, [context_attributes h, fallback_context_attributes h]))
    ∧ (createContext (context_attributes h) = none →
        createContext (fallback_context_attributes h) = none →
        ∀ c, createContext (legacy_context_attributes h) = some c →
          create_gl_context createContext h
              = (some c, [context_attributes h, fallback_context_attributes h,
                  legacy_context_attributes h])
            ∧ c.attrs = legacy_context_attributes h)
    ∧ (createContext (context_attributes h) = none →
        createContext (fallback_context_attributes h) = none →
        createContext (legacy_context_attributes h) = none →
        create_gl_context createContext h
          = (none, [context_attributes h, fallback_context_attributes h,
              legacy_context_attributes h])) := by
  refine ⟨fun c h1 => ?_, fun h1 c h2 => ?_, fun h1 h2 c h3 => ?_, fun h1 h2 h3 => ?_⟩
  · simp [create_gl_context, h1]
  · simp [create_gl_context, h1, h2]
  · exact ⟨by simp [create_gl_context, h1, h2, h3], hfaithful _ _ h3⟩
  · simp [create_gl_context, h1, h2, h3]

/-- Closed instantiation of create_gl_context_fallback_chain: an oracle that
accepts only the legacy 2.1 profile leads to three attempts in order and a
context carrying the legacy attributes. -/
theorem create_gl_context_fallback_chain_witness :
    ((fun a => if a = legacy_context_attributes (some 5)
        then some ({ config := ⟨4, some false⟩, attrs := a } : NotCurrentContext)
        else none) (context_attributes (some 5)) = none)
    ∧ ((fun a => if a = legacy_context_attributes (some 5)
        then some ({ config := ⟨4, some false⟩, attrs := a } : NotCurrentContext)
        else none) (fallback_context_attributes (some 5)) = none)
    ∧ create_gl_context
        (fun a => if a = legacy_context_attributes (some 5)
          then some ({ config := ⟨4, some false⟩, attrs := a } : NotCurrentContext)
          else none) (some 5)
        = (some { config := ⟨4, some false⟩, attrs := legacy_context_attributes (some 5) },
            [context_attributes (some 5), fallback_context_attributes (some 5),
              legacy_context_attributes (some 5)])
    ∧ ({ config := ⟨4, some false⟩,
          attrs := legacy_context_attributes (some 5) } : NotCurrentContext).attrs
        = legacy_context_attributes (some 5) := by
  refine ⟨by decide, by decide, ?_⟩
  exact (create_gl_context_fallback_chain
    (fun a => if a = legacy_context_attributes (some 5)
      then some ({ config := ⟨4, some false⟩, attrs := a } : NotCurrentContext)
      else none) (some 5)
    (fun a c hc => by
      dsimp only at hc
      split at hc
      · cases hc; rfl
      · cases hc)).2.2.1 (by decide) (by decide) _ (by decide)

/-- A platform window, identified by a numeric handle. -/
structure Window where
  id : Nat
deriving Repr, DecidableEq

/-- A window surface, recording the Config and the Window it was created
from. -/
structure Surface where
  config : Config
  windowId : Nat
deriving Repr, DecidableEq

/-- AppState from glutin_examples/src/lib.rs: the jointly owned
{Surface, Window} pair (declaration order gl_surface then window, which is
also their drop order). -/
structure AppState where
  gl_surface : Surface
  window : Window
deriving Repr, DecidableEq

/-- The renderer: id records which creation produced it (0 for the first),
and viewport records the last glViewport rectangle set through
Renderer::resize (none until the first resize). -/
structure Renderer where
  id : Nat
  viewport : Option (Int × Int)
deriving Repr, DecidableEq

/-- Renderer::resize: stores the new viewport dimensions. -/
def Renderer.resize (r : Renderer) (width height : Int) : Renderer :=
  { r with viewport := some (width, height) }

/-- GlDisplayCreationState from glutin_examples/src/lib.rs.  The Builder
variant's DisplayBuilder payload is not observed by any claim and is
omitted. -/
inductive GlDisplayCreationState where
  | builder
  | init
deriving Repr, DecidableEq

/-- The fatal error stored in exit_state when display building or window
finalization fails during resumed. -/
inductive AppError where
  | displayOrWindowCreationFailed
deriving Repr, DecidableEq

/-- The App struct from glutin_examples/src/lib.rs.  The template field is
only ever handed to the external display builder and is omitted.  exit_state
is none for Ok(()) and some e once an error was stored.  exitRequested
records calls to event_loop.exit().  configSelections, rendererCreations and
surfaceResizeCalls are ghost counters/traces of the corresponding external
calls. -/
structure App where
  renderer : Option Renderer
  state : Option AppState
  gl_context : Option PossiblyCurrentContext
  gl_display : GlDisplayCreationState
  exit_state : Option AppError
  exitRequested : Bool
  configSelections : Nat
  rendererCreations : Nat
  surfaceResizeCalls : List (Nat × Nat)
deriving Repr, DecidableEq

/-- App::new. -/
def initApp : App :=
  { renderer := none
  , state := none
  , gl_context := none
  , gl_display := GlDisplayCreationState.builder
  , exit_state := none
  , exitRequested := false
  , configSelections := 0
  , rendererCreations := 0
  , surfaceResizeCalls := [] }

/-- Oracles for the external platform calls the App makes.  A none / false
answer makes the corresponding call fail. -/
structure Env where
  buildDisplay : Option (Window × Config)
  finalizeWindow : Option Window
  createContext : Config → ContextAttributes → Option NotCurrentContext
  buildSurfaceAttrs : Bool
  createWindowSurface : Config → Window → Option Surface
  makeCurrent : Bool
  setSwapInterval : Bool
  makeNotCurrent : Bool
  swapBuffers : Bool
deriving Inhabited

/-- renderer.get_or_insert_with(|| Renderer::new(..)): keep an existing
renderer, otherwise create one whose id is the current creation counter and
bump the counter. -/
def rendererGetOrInsert (renderer : Option Renderer) (rendererCreations : Nat) :
    Option Renderer × Nat :=
  match renderer with
  | some r => (some r, rendererCreations)
  | none =>
    (some { id := rendererCreations, viewport := none }, rendererCreations + 1)

/-- The tail of App::resumed shared by both branches of the match on
gl_display: build surface attributes (expect), create the window surface
(unwrap), make the context current (unwrap), lazily create the Renderer,
try to set the swap interval (failure only logged), and assert that the
previous stored state was absent while installing the new AppState. -/
def resumedFinish (env : Env) (s : App) (window : Window) (gl_config : Config) :
    Option App :=
  if !env.buildSurfaceAttrs then none
  else
    match env.createWindowSurface gl_config window with
    | none => none
    | some gl_surface =>
      match s.gl_context with
      | none => none
      | some gl_context =>
        if !env.makeCurrent then none
        else
          let gl_context := { gl_context with isCurrent := true }
          let rc := rendererGetOrInsert s.renderer s.rendererCreations
          if s.state.isSome then none
          else some { s with
            gl_context := some gl_context
          , renderer := rc.1
          , rendererCreations := rc.2
          , state := some { gl_surface := gl_surface, window := window } }

/-- App::resumed.  In the Builder branch the display builder is run (its
internal use of gl_config_picker is recorded by the configSelections ghost
counter on success), the display is marked Init, and the context is created
through create_gl_context; a build error is stored in exit_state and exit is
requested.  In the Init branch the config is re-queried from the retained
context and only the window is finalized. -/
def resumed (env : Env) (s : App) : Option App :=
  match s.gl_display with
  | GlDisplayCreationState.builder =>
    match env.buildDisplay with
    | none =>
      some { s with
        exit_state := some AppError.displayOrWindowCreationFailed
      , exitRequested := true }
    | some (window, gl_config) =>
      let s := { s with
        configSelections := s.configSelections + 1
      , gl_display := GlDisplayCreationState.init }
      match (create_gl_context (env.createContext gl_config) (some window.id)).1 with
      | none => none
      | some notCurrent =>
        let s := { s with
          gl_context := some notCurrent.treat_as_possibly_current }
        resumedFinish env s window gl_config
  | GlDisplayCreationState.init =>
    match s.gl_context with
    | none => none
    | some ctx =>
      match env.finalizeWindow with
      | none =>
        some { s with
          exit_state := some AppError.displayOrWindowCreationFailed
        , exitRequested := true }
      | some window => resumedFinish env s window ctx.config

/-- App::suspended: drop the AppState, then take the context (unwrap), make
it not current (unwrap) and store it back treated as possibly current. -/
def suspended (env : Env) (s : App) : Option App :=
  let s := { s with state := none }
  match s.gl_context with
  | none => none
  | some ctx =>
    if !env.makeNotCurrent then none
    else
      some { s with
        gl_context := some
          (NotCurrentContext.treat_as_possibly_current
            { config := ctx.config, attrs := ctx.attrs }) }

/-- The WindowEvent::Resized arm of App::window_event: guarded by both
dimensions being nonzero; when the AppState is present the surface is
resized (recorded in surfaceResizeCalls) and the renderer viewport updated;
otherwise nothing happens. -/
def windowEventResized (s : App) (width height : Nat) : Option App :=
  if width ≠ 0 ∧ height ≠ 0 then
    match s.state with
    | some _ =>
      match s.gl_context with
      | none => none
      | some _ =>
        let s := { s with
          surfaceResizeCalls := s.surfaceResizeCalls ++ [(width, height)] }
        match s.renderer with
        | none => none
        | some renderer =>
          some { s with
            renderer := some (renderer.resize (Int.ofNat width) (Int.ofNat height)) }
    | none => some s
  else some s

/-- App::about_to_wait: when the AppState is present, draw, request a redraw
and swap buffers (unwrap); a swap failure is a panic.  Without AppState it
does nothing. -/
def about_to_wait (env : Env) (s : App) : Option App :=
  match s.state with
  | none => some s
  | some _ =>
    match s.gl_context with
    | none => none
    | some _ =>
      match s.renderer with
      | none => none
      | some _ => if env.swapBuffers then some s else none

/-- The teardown actions App::exiting performs, in order. -/
inductive TeardownAction where
  | extractDisplay
  | dropSurface
  | dropWindow
  | terminateEglDisplay
  | dropDisplayHandle
deriving Repr, DecidableEq

/-- App::exiting: take the context (unwrap) and extract its display, drop
the AppState (surface first, then window, following field order), then on
the EGL backend explicitly terminate the display; the extracted display
handle itself is dropped when the function returns. -/
def exiting (eglBackend : Bool) (s : App) :
    Option (App × List TeardownAction) :=
  match s.gl_context with
  | none => none
  | some _ =>
    let s1 := { s with gl_context := none }
    let dropState :=
      match s1.state with
      | some _ => [TeardownAction.dropSurface, TeardownAction.dropWindow]
      | none => []
    let s2 := { s1 with state := none }
    let term :=
      if eglBackend then [TeardownAction.terminateEglDisplay] else []
    some (s2, TeardownAction.extractDisplay ::
      (dropState ++ term ++ [TeardownAction.dropDisplayHandle]))

/-- The events delivered to the App by the event loop.  closeRequested also
stands for the Escape key arm, which shares its handler. -/
inductive Event where
  | resume
  | suspend
  | resized (width height : Nat)
  | closeRequested
  | tick
deriving Repr, DecidableEq

/-- Dispatch one event to the corresponding App handler. -/
def step (env : Env) (s : App) : Event → Option App
  | Event.resume => resumed env s
  | Event.suspend => suspended env s
  | Event.resized width height => windowEventResized s width height
  | Event.closeRequested => some { s with exitRequested := true }
  | Event.tick => about_to_wait env s

/-- Run a list of events from a given App state; none when a panic occurs. -/
def runFrom (env : Env) (s : App) : List Event → Option App
  | [] => some s
  | e :: evs =>
    match step env s e with
    | none => none
    | some s' => runFrom env s' evs

/-- Run a list of events from the initial App state. -/
def runApp (env : Env) (events : List Event) : Option App :=
  runFrom env initApp events

/-- The environment in which every external call succeeds: the display
builder picks a 4-sample opaque config on window 0, resumes after a suspend
finalize window 1, and context, surface, current-state and swap calls all
succeed. -/
def okEnv : Env :=
  { buildDisplay := some ({ id := 0 }, { numSamples := 4, supportsTransparency := some false })
  , finalizeWindow := some { id := 1 }
  , createContext := fun cfg attrs => some { config := cfg, attrs := attrs }
  , buildSurfaceAttrs := true
  , createWindowSurface := fun cfg w => some { config := cfg, windowId := w.id }
  , makeCurrent := true
  , setSwapInterval := true
  , makeNotCurrent := true
  , swapBuffers := true }

/-- The config okEnv's display builder picks. -/
def okConfig : Config := { numSamples := 4, supportsTransparency := some false }

/-- The App state after one successful resume under okEnv. -/
def appAfterFirstResume : App :=
  { renderer := some { id := 0, viewport := none }
  , state := some { gl_surface := { config := okConfig, windowId := 0 }, window := { id := 0 } }
  , gl_context := some
      { config := okConfig, attrs := { api := none, rawWindowHandle := some 0 }, isCurrent := true }
  , gl_display := GlDisplayCreationState.init
  , exit_state := none
  , exitRequested := false
  , configSelections := 1
  , rendererCreations := 1
  , surfaceResizeCalls := [] }

/-- The App state after resume, suspend, resume under okEnv (the idle ticks
of the end-to-end scenario leave the state unchanged). -/
def appAfterSecondResume : App :=
  { appAfterFirstResume with
    state := some { gl_surface := { config := okConfig, windowId := 1 }, window := { id := 1 } } }

/-- okEnv except that swapping buffers fails. -/
def swapFailEnv : Env := { okEnv with swapBuffers := false }

/-- C5: a resize event with a zero width or height performs no underlying
surface resize call and leaves the whole App state, in particular the
renderer's stored viewport, unchanged; so does a resize without an AppState;
the underlying resize and the viewport update happen exactly when both
dimensions are nonzero and the AppState is present. -/
theorem resize_zero_is_noop (env : Env) (s : App) (width height : Nat) :
    ((width = 0 ∨ height = 0) → step env s (Event.resized width height) = some s)
    ∧ (s.state = none → step env s (Event.resized width height) = some s)
    ∧ (∀ st ctx r, s.state = some st → s.gl_context = some ctx → s.renderer = some r →
        width ≠ 0 → height ≠ 0 →
        step env s (Event.resized width height)
          = some { s with
              surfaceResizeCalls := s.surfaceResizeCalls ++ [(width, height)]
            , renderer := some (r.resize (Int.ofNat width) (Int.ofNat height)) }) := by
  refine ⟨fun h => ?_, fun h => ?_, fun st ctx r hst hctx hr hw hh => ?_⟩
  · have hcond : ¬ (width ≠ 0 ∧ height ≠ 0) := by
      rcases h with h | h <;> simp [h]
    simp [step, windowEventResized, hcond]
  · by_cases hcond : width ≠ 0 ∧ height ≠ 0
    · simp [step, windowEventResized, hcond, h]
    · simp [step, windowEventResized, hcond]
  · simp [step, windowEventResized, hw, hh, hst, hctx, hr]

/-- Closed instantiation of resize_zero_is_noop: from the state after the
first resume, resize events (0,480) and (640,0) change nothing, while
(640,480) records one underlying resize and sets the viewport. -/
theorem resize_zero_is_noop_witness :
    step okEnv appAfterFirstResume (Event.resized 0 480) = some appAfterFirstResume
    ∧ step okEnv appAfterFirstResume (Event.resized 640 0) = some appAfterFirstResume
    ∧ step okEnv appAfterFirstResume (Event.resized 640 480)
        = some { appAfterFirstResume with
            surfaceResizeCalls := appAfterFirstResume.surfaceResizeCalls ++ [(640, 480)]
          , renderer := some (Renderer.resize { id := 0, viewport := none }
              (Int.ofNat 640) (Int.ofNat 480)) } :=
  ⟨(resize_zero_is_noop okEnv appAfterFirstResume 0 480).1 (Or.inl rfl),
    (resize_zero_is_noop okEnv appAfterFirstResume 640 0).1 (Or.inr rfl),
    (resize_zero_is_noop okEnv appAfterFirstResume 640 480).2.2
      { gl_surface := { config := okConfig, windowId := 0 }, window := { id := 0 } }
      { config := okConfig, attrs := { api := none, rawWindowHandle := some 0 }, isCurrent := true }
      { id := 0, viewport := none }
      rfl rfl rfl (by decide) (by decide)⟩

theorem rendererGetOrInsert_isSome (renderer : Option Renderer) (n : Nat) :
    (rendererGetOrInsert renderer n).1.isSome = true := by
  cases renderer <;> rfl

theorem rendererGetOrInsert_preserves (renderer : Option Renderer) (n : Nat)
    (r : Renderer) (h : renderer = some r) :
    (rendererGetOrInsert renderer n).1 = some r := by
  subst h; rfl

theorem resumedFinish_some (env : Env) (s : App) (w : Window) (cfg : Config)
    (s' : App) (h : resumedFinish env s w cfg = some s') :
    s'.state.isSome = true ∧ s'.gl_context.isSome = true
    ∧ s'.renderer.isSome = true
    ∧ (∀ r, s.renderer = some r → s'.renderer = some r) := by
  unfold resumedFinish at h
  split at h
  · cases h
  · split at h
    · cases h
    · split at h
      · cases h
      · split at h
        · cases h
        · split at h
          · cases h
          · cases h
            refine ⟨rfl, rfl, rendererGetOrInsert_isSome s.renderer s.rendererCreations,
              fun r hr => rendererGetOrInsert_preserves s.renderer s.rendererCreations r hr⟩

theorem resumed_okEnv_some (s s' : App) (h : resumed okEnv s = some s') :
    s'.state.isSome = true ∧ s'.gl_context.isSome = true
    ∧ s'.renderer.isSome = true
    ∧ (∀ r, s.renderer = some r → s'.renderer = some r) := by
  unfold resumed at h
  cases hd : s.gl_display with
  | builder =>
    rw [hd] at h
    simp only [okEnv, create_gl_context, context_attributes] at h
    have h2 := resumedFinish_some _ _ _ _ _ h
    exact ⟨h2.1, h2.2.1, h2.2.2.1, fun r hr => h2.2.2.2 r hr⟩
  | init =>
    rw [hd] at h
    cases hctx : s.gl_context with
    | none => rw [hctx] at h; cases h
    | some ctx =>
      rw [hctx] at h
      simp only [okEnv] at h
      exact resumedFinish_some _ _ _ _ _ h

theorem suspended_okEnv_some (s s' : App) (h : suspended okEnv s = some s') :
    s'.state = none ∧ s'.gl_context.isSome = true ∧ s'.renderer = s.renderer := by
  unfold suspended at h
  cases hctx : s.gl_context with
  | none => simp only [hctx] at h; cases h
  | some ctx =>
    simp only [hctx, okEnv, Bool.not_true, Bool.false_eq_true, if_false] at h
    cases h
    exact ⟨rfl, rfl, rfl⟩

theorem runFrom_append (env : Env) (s : App) (l1 l2 : List Event) :
    runFrom env s (l1 ++ l2)
      = Option.bind (runFrom env s l1) (fun s' => runFrom env s' l2) := by
  induction l1 generalizing s with
  | nil => simp [runFrom]
  | cons e l ih =>
    simp only [List.cons_append, runFrom]
    cases step env s e with
    | none => rfl
    | some s' => exact ih s'

theorem lifecycle_state_iff (evs : List Event) (s : App)
    (hl : ∀ e ∈ evs, e = Event.resume ∨ e = Event.suspend)
    (h : runApp okEnv evs = some s) :
    (s.state.isSome = true ↔ evs.getLast? = some Event.resume) := by
  induction evs using List.reverseRecOn generalizing s with
  | nil =>
    cases h
    simp [initApp]
  | append_singleton l e ih =>
    rw [runApp, runFrom_append] at h
    cases h0 : runFrom okEnv initApp l with
    | none => rw [h0] at h; cases h
    | some s0 =>
      rw [h0] at h
      simp only [Option.some_bind, runFrom] at h
      cases he : step okEnv s0 e with
      | none => rw [he] at h; cases h
      | some s1 =>
        rw [he] at h
        cases h
        rcases hl e (List.mem_append_right l (List.mem_singleton_self e)) with rfl | rfl
        · have := resumed_okEnv_some s0 s he
          simp [List.getLast?_concat, this.1]
        · have := suspended_okEnv_some s0 s he
          simp [List.getLast?_concat, this.1]

theorem step_preserves_renderer_okEnv (s s1 : App) (e : Event)
    (he : e = Event.resume ∨ e = Event.suspend)
    (h : step okEnv s e = some s1) (r : Renderer) (hr : s.renderer = some r) :
    s1.renderer = some r := by
  rcases he with rfl | rfl
  · exact (resumed_okEnv_some s s1 h).2.2.2 r hr
  · rw [(suspended_okEnv_some s s1 h).2.2, hr]

theorem runFrom_preserves_renderer (evs : List Event)
    (hl : ∀ e ∈ evs, e = Event.resume ∨ e = Event.suspend) :
    ∀ s s' r, runFrom okEnv s evs = some s' → s.renderer = some r →
      s'.renderer = some r := by
  induction evs with
  | nil => intro s s' r h hr; cases h; exact hr
  | cons e l ih =>
    intro s s' r h hr
    simp only [runFrom] at h
    cases he : step okEnv s e with
    | none => rw [he] at h; cases h
    | some s1 =>
      rw [he] at h
      have h1 : s1.renderer = some r :=
        step_preserves_renderer_okEnv s s1 e (hl e (List.mem_cons_self e l)) he r hr
      exact ih (fun e' he' => hl e' (List.mem_cons_of_mem e he')) s1 s' r h h1

/-- C6: for any interleaving of resume and suspend events from the initial
state that runs without panicking in the all-calls-succeed environment, the
AppState is present exactly when the most recent lifecycle event was a
resume not followed by a suspend; and once the Renderer exists it is never
recreated or replaced by any further resume/suspend events. -/
theorem lifecycle_invariant (evs evs' : List Event) (s s' : App) (r : Renderer)
    (hl : ∀ e ∈ evs, e = Event.resume ∨ e = Event.suspend)
    (hl' : ∀ e ∈ evs', e = Event.resume ∨ e = Event.suspend)
    (h : runApp okEnv evs = some s)
    (h' : runApp okEnv (evs ++ evs') = some s') :
    (s.state.isSome = true ↔ evs.getLast? = some Event.resume)
    ∧ (s.renderer = some r → s'.renderer = some r) := by
  refine ⟨lifecycle_state_iff evs s hl h, fun hr => ?_⟩
  rw [runApp, runFrom_append] at h'
  rw [runApp] at h
  rw [h] at h'
  simp only [Option.some_bind] at h'
  exact runFrom_preserves_renderer evs' hl' s s' r h' hr

/-- Closed instantiation of lifecycle_invariant on the interleaving
resume; then suspend, resume. -/
theorem lifecycle_invariant_witness :
    runApp okEnv [Event.resume] = some appAfterFirstResume
    ∧ runApp okEnv ([Event.resume] ++ [Event.suspend, Event.resume])
        = some appAfterSecondResume
    ∧ ((appAfterFirstResume.state.isSome = true
          ↔ [Event.resume].getLast? = some Event.resume)
        ∧ (appAfterFirstResume.renderer = some { id := 0, viewport := none } →
            appAfterSecondResume.renderer = some { id := 0, viewport := none })) :=
  ⟨by decide, by decide,
    lifecycle_invariant [Event.resume] [Event.suspend, Event.resume]
      appAfterFirstResume appAfterSecondResume { id := 0, viewport := none }
      (by decide) (by decide) (by decide) (by decide)⟩

/-- C7: in the sequence resume, idle-tick, suspend, resume, idle-tick under
the all-calls-succeed environment, config selection runs exactly once (the
second resume reuses the config queried from the retained context: the new
surface carries that same config), and exactly one Renderer is ever
created. -/
theorem resume_tick_suspend_resume_tick :
    ∃ s : App,
      runApp okEnv [Event.resume, Event.tick, Event.suspend, Event.resume, Event.tick]
          = some s
      ∧ s.configSelections = 1
      ∧ s.rendererCreations = 1
      ∧ s.renderer = some { id := 0, viewport := none }
      ∧ Option.map PossiblyCurrentContext.config s.gl_context = some okConfig
      ∧ Option.map (fun st => st.gl_surface.config) s.state = some okConfig :=
  ⟨appAfterSecondResume, by decide, by decide, by decide, by decide, by decide, by decide⟩

/-- The teardown trace drops the surface, then the window, and both happen
before any display release action (the explicit EGL termination and the
drop of the extracted display handle). -/
def appStateDroppedFirst (tr : List TeardownAction) : Prop :=
  (∀ i j : Fin tr.length,
      (tr.get i = TeardownAction.dropSurface ∨ tr.get i = TeardownAction.dropWindow) →
      (tr.get j = TeardownAction.terminateEglDisplay
          ∨ tr.get j = TeardownAction.dropDisplayHandle) →
      (i : Nat) < (j : Nat))
  ∧ (∀ i j : Fin tr.length, tr.get i = TeardownAction.dropSurface →
      tr.get j = TeardownAction.dropWindow → (i : Nat) < (j : Nat))

/-- C8: from every App state that holds a context (hence a display to
release), and on both backend variants, the exit handler succeeds and its
teardown trace drops the AppState, surface then window, before any display
release, in particular before the explicit EGL display termination. -/
theorem exiting_drops_appstate_before_display (s : App) (eglBackend : Bool)
    (h : s.gl_context.isSome = true) :
    ∃ s' tr, exiting eglBackend s = some (s', tr) ∧ appStateDroppedFirst tr := by
  cases hctx : s.gl_context with
  | none => rw [hctx] at h; cases h
  | some ctx =>
    refine ⟨{ s with gl_context := none, state := none }, ?_⟩
    cases hst : s.state with
    | none =>
      cases eglBackend with
      | false =>
        exact ⟨[TeardownAction.extractDisplay, TeardownAction.dropDisplayHandle],
          by unfold exiting; rw [hctx]; simp [hst], by exact ⟨by decide, by decide⟩⟩
      | true =>
        exact ⟨[TeardownAction.extractDisplay, TeardownAction.terminateEglDisplay,
            TeardownAction.dropDisplayHandle],
          by unfold exiting; rw [hctx]; simp [hst], by exact ⟨by decide, by decide⟩⟩
    | some st =>
      cases eglBackend with
      | false =>
        exact ⟨[TeardownAction.extractDisplay, TeardownAction.dropSurface,
            TeardownAction.dropWindow, TeardownAction.dropDisplayHandle],
          by unfold exiting; rw [hctx]; simp [hst], by exact ⟨by decide, by decide⟩⟩
      | true =>
        exact ⟨[TeardownAction.extractDisplay, TeardownAction.dropSurface,
            TeardownAction.dropWindow, TeardownAction.terminateEglDisplay,
            TeardownAction.dropDisplayHandle],
          by unfold exiting; rw [hctx]; simp [hst], by exact ⟨by decide, by decide⟩⟩

/-- Closed instantiation of exiting_drops_appstate_before_display from the
state after the first resume, on the EGL backend. -/
theorem exiting_drops_appstate_before_display_witness :
    appAfterFirstResume.gl_context.isSome = true
    ∧ ∃ s' tr, exiting true appAfterFirstResume = some (s', tr)
        ∧ appStateDroppedFirst tr :=
  ⟨by decide,
    exiting_drops_appstate_before_display appAfterFirstResume true (by decide)⟩

/-- C9 counterexample: with every call succeeding except buffer swapping,
the run resume; idle-tick does not end in a state at all (the swap failure
is an unwrap panic), so in particular there is no final state in which the
failure was stored as the terminal result with loop termination
requested. -/
theorem swap_failure_not_stored :
    runApp swapFailEnv [Event.resume, Event.tick] = none
    ∧ ¬ ∃ s : App, runApp swapFailEnv [Event.resume, Event.tick] = some s
        ∧ s.exit_state.isSome = true ∧ s.exitRequested = true := by
  refine ⟨by decide, ?_⟩
  rintro ⟨s, hs, -, -⟩
  rw [(by decide : runApp swapFailEnv [Event.resume, Event.tick] = none)] at hs
  cases hs

/-- C9 amended: a buffer-swap failure during an idle tick is fatal, but as
an immediate unwrap panic: the tick produces no successor state, so nothing
is stored in exit_state and no event-loop termination is requested. -/
theorem swap_failure_panics (env : Env) (s : App)
    (hst : s.state.isSome = true) (_hctx : s.gl_context.isSome = true)
    (_hr : s.renderer.isSome = true) (hswap : env.swapBuffers = false) :
    step env s Event.tick = none := by
  show about_to_wait env s = none
  unfold about_to_wait
  cases h1 : s.state with
  | none => rw [h1] at hst; cases hst
  | some st =>
    cases h2 : s.gl_context with
    | none => rfl
    | some ctx =>
      cases h3 : s.renderer with
      | none => rfl
      | some r => simp [hswap]

/-- Closed instantiation of swap_failure_panics from the state after the
first resume. -/
theorem swap_failure_panics_witness :
    appAfterFirstResume.state.isSome = true
    ∧ appAfterFirstResume.gl_context.isSome = true
    ∧ appAfterFirstResume.renderer.isSome = true
    ∧ swapFailEnv.swapBuffers = false
    ∧ step swapFailEnv appAfterFirstResume Event.tick = none :=
  ⟨by decide, by decide, by decide, by decide,
    swap_failure_panics swapFailEnv appAfterFirstResume
      (by decide) (by decide) (by decide) (by decide)⟩

theorem resumedFinish_state_some_panics (s : App) (w : Window) (cfg : Config)
    (h : s.state.isSome = true) : resumedFinish okEnv s w cfg = none := by
  unfold resumedFinish
  cases hctx : s.gl_context <;> simp [okEnv, hctx, h]

/-- C10: a resume arriving while an AppState is already stored (two
consecutive resumes without an intervening suspend) ends in a panic — the
assert that the replaced state was absent fires — rather than in any
successor state, so the previous Surface/Window pair is never silently
replaced. -/
theorem double_resume_panics (s : App) (h : s.state.isSome = true) :
    step okEnv s Event.resume = none := by
  show resumed okEnv s = none
  unfold resumed
  cases hd : s.gl_display with
  | builder =>
    simp only [okEnv, create_gl_context, context_attributes]
    exact resumedFinish_state_some_panics _ _ _ h
  | init =>
    cases hctx : s.gl_context with
    | none => rfl
    | some ctx =>
      simp only [okEnv]
      exact resumedFinish_state_some_panics _ _ _ h

/-- Closed instantiation of double_resume_panics: the second of two
consecutive resumes panics. -/
theorem double_resume_panics_witness :
    appAfterFirstResume.state.isSome = true
    ∧ step okEnv appAfterFirstResume Event.resume = none
    ∧ runApp okEnv [Event.resume, Event.resume] = none :=
  ⟨by decide, double_resume_panics appAfterFirstResume (by decide), by decide⟩

end GlutinExamples
